import Mathlib

set_option maxRecDepth 100000

/-!
Shallow embedding of the `python-searchquery` repository (pkkid/python-searchquery).

The embedding follows the current `searchquery` package sources:
`searchquery/basesearch.py`, `searchquery/basesearchfields.py` and
`searchquery/django/searchfields.py`, together with the helper bodies that the
repository keeps in `django_searchquery/utils.py` and
`django_searchquery/modifiers.py` (the older in-tree revision of the same
functions; the new package re-exports them under `searchquery.utils` /
`searchquery.modifiers`).

Modelling conventions:
* Python floats are modelled as exact rationals (`ℚ`).
* Python `datetime` values are modelled by the `DT` structure (microseconds,
  which are always zero for the values produced here, are omitted); timezone
  conversion (`astimezone`) is modelled as the identity, i.e. all datetimes
  live in the single configured zone, and `datetime.now(tz)` is passed in
  explicitly as the `now` field of the configuration.
* A Django `Q(**kwargs)` object is modelled by `Qobj`; a keyword argument
  `f'{model_field}{suffix}'` is represented as the pair of the model field and
  the parsed lookup suffix (`__iexact`, `__gt`, ...), which is exactly how
  Django interprets the concatenated string.
* A raised `SearchError` is `Out.err msg`; any other uncaught Python exception
  (`KeyError`, `TypeError`, ...) is `Out.crash`.
-/

/-- Outcome of running a piece of Python code: a value, a raised `SearchError`
(with its message), or any other uncaught exception. -/
inductive Out (α : Type) where
  | ok (v : α)
  | err (msg : String)
  | crash
deriving DecidableEq

/-- Digits of a character list read as a base-10 natural number. -/
def digitsVal (cs : List Char) : Nat :=
  cs.foldl (fun a c => a * 10 + (c.toNat - 48)) 0

/-- True when every character is a decimal digit. -/
def allDigits (cs : List Char) : Bool :=
  cs.all (fun c => c.isDigit)

/-- Model of the Python built-in `int(valuestr)` on the string forms the
repository feeds it: surrounding whitespace, an optional sign, then decimal
digits (digit-group underscores, which never occur here, are not modelled). -/
def pyIntOpt (s : String) : Option Int :=
  match (s.trim).data with
  | '-' :: rest => if rest ≠ [] ∧ allDigits rest then some (-(digitsVal rest : Int)) else none
  | '+' :: rest => if rest ≠ [] ∧ allDigits rest then some ((digitsVal rest : Int)) else none
  | cs => if cs ≠ [] ∧ allDigits cs then some ((digitsVal cs : Int)) else none

/-- Model of the Python built-in `float(valuestr)` on plain decimal literals
(optional sign, digits, optional decimal point); exponent/inf/nan forms, which
the repository's inputs do not use, are not modelled. -/
def pyFloat (s : String) : Option ℚ :=
  let withSign : ℚ × List Char :=
    match (s.trim).data with
    | '-' :: rest => (-1, rest)
    | '+' :: rest => (1, rest)
    | cs => (1, cs)
  match (withSign.2).splitOn '.' with
  | [ip] => if ip ≠ [] ∧ allDigits ip then some (withSign.1 * (digitsVal ip : ℚ)) else none
  | [ip, fp] =>
      if (ip ≠ [] ∨ fp ≠ []) ∧ allDigits ip ∧ allDigits fp then
        some (withSign.1 * (((digitsVal ip : ℚ) * 10 ^ fp.length + (digitsVal fp : ℚ)) / 10 ^ fp.length))
      else none
  | _ => none

/-- Translation of `utils.is_int`. -/
def isInt (s : String) : Bool := (pyIntOpt s).isSome

/-- Translation of `utils.is_number` (`float(valuestr)` succeeds). -/
def isNumber (s : String) : Bool := (pyFloat s).isSome

/-- Translation of `utils.is_none`: the valuestr lowercases to a member of
`NONE = ('none', 'null')`. -/
def isNone (s : String) : Bool := s.toLower == "none" || s.toLower == "null"

/-- Translation of the `MONTH_NAMES` table (calendar month names, month
abbreviations, plus `sept`). -/
def monthNames : List String :=
  ["january", "february", "march", "april", "may", "june", "july", "august",
   "september", "october", "november", "december",
   "jan", "feb", "mar", "apr", "may", "jun", "jul", "aug", "sep", "oct", "nov", "dec",
   "sept"]

/-- Translation of the `WEEKDAY_NAMES` table (day names plus abbreviations). -/
def weekdayNames : List String :=
  ["monday", "tuesday", "wednesday", "thursday", "friday", "saturday", "sunday",
   "mon", "tue", "wed", "thu", "fri", "sat", "sun"]

/-- Translation of `utils.is_month`. -/
def isMonth (s : String) : Bool := monthNames.contains (s.toLower.trim)

/-- Translation of `utils.is_weekday`. -/
def isWeekday (s : String) : Bool := weekdayNames.contains s.toLower

/-- Translation of `utils.is_year` (an int between 1900 and 2100). -/
def isYear (s : String) : Bool :=
  match pyIntOpt s with
  | some n => (1900 ≤ n ∧ n ≤ 2100 : Bool)
  | none => false

/-- Translation of `utils.is_day_num` (an int with 0 < n <= 31). -/
def isDayNum (s : String) : Bool :=
  match pyIntOpt s with
  | some n => (0 < n ∧ n ≤ 31 : Bool)
  | none => false

/-- Translation of `utils.is_month_num` (an int with 0 < n <= 12). -/
def isMonthNum (s : String) : Bool :=
  match pyIntOpt s with
  | some n => (0 < n ∧ n ≤ 12 : Bool)
  | none => false

/-- Gregorian leap-year test, as in Python's `calendar`/`datetime`. -/
def isLeap (y : Nat) : Bool := (y % 4 == 0 && y % 100 != 0) || y % 400 == 0

/-- Days in a month of the proleptic Gregorian calendar. -/
def daysInMonth (y m : Nat) : Nat :=
  if m == 2 then (if isLeap y then 29 else 28)
  else if m == 4 || m == 6 || m == 9 || m == 11 then 30
  else 31

/-- Days in the given year before the first of the given month. -/
def daysBeforeMonth (y m : Nat) : Nat :=
  let base : Nat :=
    match m with
    | 1 => 0 | 2 => 31 | 3 => 59 | 4 => 90 | 5 => 120 | 6 => 151
    | 7 => 181 | 8 => 212 | 9 => 243 | 10 => 273 | 11 => 304 | _ => 334
  if 2 < m ∧ isLeap y then base + 1 else base

/-- Days before January 1st of the given year, counting from year 1. -/
def daysBeforeYear (y : Nat) : Nat :=
  let n := y - 1
  n * 365 + n / 4 + n / 400 - n / 100

/-- Python `datetime.datetime`, restricted to the fields the repository's date
logic reads and writes (microseconds, always zero here, are omitted). -/
structure DT where
  year : Nat
  month : Nat
  day : Nat
  hour : Nat
  minute : Nat
  second : Nat
deriving DecidableEq

/-- Proleptic Gregorian ordinal of the date, as in `datetime.date.toordinal`. -/
def toOrdinal (d : DT) : Nat :=
  daysBeforeYear d.year + daysBeforeMonth d.year d.month + d.day

/-- Month and day from a zero-based day-of-year. -/
def monthFromDoy (y doy : Nat) : Nat × Nat :=
  if daysBeforeMonth y 12 ≤ doy then (12, doy - daysBeforeMonth y 12 + 1)
  else if daysBeforeMonth y 11 ≤ doy then (11, doy - daysBeforeMonth y 11 + 1)
  else if daysBeforeMonth y 10 ≤ doy then (10, doy - daysBeforeMonth y 10 + 1)
  else if daysBeforeMonth y 9 ≤ doy then (9, doy - daysBeforeMonth y 9 + 1)
  else if daysBeforeMonth y 8 ≤ doy then (8, doy - daysBeforeMonth y 8 + 1)
  else if daysBeforeMonth y 7 ≤ doy then (7, doy - daysBeforeMonth y 7 + 1)
  else if daysBeforeMonth y 6 ≤ doy then (6, doy - daysBeforeMonth y 6 + 1)
  else if daysBeforeMonth y 5 ≤ doy then (5, doy - daysBeforeMonth y 5 + 1)
  else if daysBeforeMonth y 4 ≤ doy then (4, doy - daysBeforeMonth y 4 + 1)
  else if daysBeforeMonth y 3 ≤ doy then (3, doy - daysBeforeMonth y 3 + 1)
  else if daysBeforeMonth y 2 ≤ doy then (2, doy - daysBeforeMonth y 2 + 1)
  else (1, doy + 1)

/-- Inverse of `toOrdinal`, following Python's `_ord2ymd` 400/100/4/1-year
cycle decomposition. -/
def fromOrdinal (n : Nat) : Nat × Nat × Nat :=
  let n0 := n - 1
  let n400 := n0 / 146097
  let r400 := n0 % 146097
  let n100 := r400 / 36524
  let r100 := r400 % 36524
  let n4 := r100 / 1461
  let r4 := r100 % 1461
  let n1 := r4 / 365
  let r1 := r4 % 365
  let year := n400 * 400 + n100 * 100 + n4 * 4 + n1 + 1
  if n1 == 4 || n100 == 4 then (year - 1, 12, 31)
  else
    let md := monthFromDoy year r1
    (year, md.1, md.2)

/-- The datetime moved to the date of the given ordinal, keeping the time. -/
def withOrdinal (n : Nat) (dt : DT) : DT :=
  let ymd := fromOrdinal n
  ⟨ymd.1, ymd.2.1, ymd.2.2, dt.hour, dt.minute, dt.second⟩

/-- Model of `dt + timedelta(days=k)` / `dt + relativedelta(days=k)`. -/
def addDaysDT (k : Nat) (dt : DT) : DT := withOrdinal (toOrdinal dt + k) dt

/-- Model of `dt - timedelta(days=k)`. -/
def subDaysDT (k : Nat) (dt : DT) : DT := withOrdinal (toOrdinal dt - k) dt

/-- Python `datetime.weekday()`: Monday is 0, Sunday is 6. -/
def weekdayPy (dt : DT) : Nat := (toOrdinal dt + 6) % 7

/-- Clamp a day-of-month into the month, as `relativedelta` does. -/
def clampDay (y m d : Nat) : Nat := min d (daysInMonth y m)

/-- Model of `dt + relativedelta(years=1)`. -/
def addYearsRd (dt : DT) : DT :=
  ⟨dt.year + 1, dt.month, clampDay (dt.year + 1) dt.month dt.day, dt.hour, dt.minute, dt.second⟩

/-- Model of `dt - relativedelta(years=1)`. -/
def subYearsRd (dt : DT) : DT :=
  ⟨dt.year - 1, dt.month, clampDay (dt.year - 1) dt.month dt.day, dt.hour, dt.minute, dt.second⟩

/-- Model of `dt + relativedelta(months=1)`. -/
def addMonths1 (dt : DT) : DT :=
  let ym : Nat × Nat := if dt.month == 12 then (dt.year + 1, 1) else (dt.year, dt.month + 1)
  ⟨ym.1, ym.2, clampDay ym.1 ym.2 dt.day, dt.hour, dt.minute, dt.second⟩

/-- Total second count of the datetime, used to compare datetimes. -/
def dtKey (d : DT) : Nat :=
  ((toOrdinal d * 24 + d.hour) * 60 + d.minute) * 60 + d.second

/-- Strict datetime comparison (`a < b` on Python datetimes). -/
def dtLt (a b : DT) : Bool := dtKey a < dtKey b

/-- Non-strict datetime comparison (`a <= b` on Python datetimes). -/
def dtLe (a b : DT) : Bool := dtKey a ≤ dtKey b

/-- A Python value as it appears on either side of a Django field lookup.
List values occur only as the literal `[]` of the `Q(pk__in=[])` sentinel, so
they are carried as a list of primary-key strings. -/
inductive Val where
  | vstr (s : String)
  | vnum (q : ℚ)
  | vbool (b : Bool)
  | vdate (d : DT)
  | vnull
  | vlist (elems : List String)
deriving DecidableEq

/-- The Django lookup suffix of a filter keyword argument. `exact` is the
suffix-less form `Q(field=value)`. -/
inductive Lookup where
  | iexact
  | icontains
  | gt
  | gte
  | lt
  | lte
  | isnull
  | inlist
  | exact
deriving DecidableEq

/-- A Django `Q` object: a conjunction of keyword lookups, or a combination
with `&`, `|`, `~`. The kwarg `f'{model_field}{suffix}'` is represented as the
pair (model field, lookup). -/
inductive Qobj where
  | q (kwargs : List (String × Lookup × Val))
  | qand (a b : Qobj)
  | qor (a b : Qobj)
  | qnot (a : Qobj)
deriving DecidableEq

/-- A database row: the stored value of each model field (absent columns are
`Val.vnull`). -/
def Row : Type := String → Val

/-- Substring test on character lists (`needle` occurs in `hay`). -/
def charsStartWith : List Char → List Char → Bool
  | _, [] => true
  | [], _ :: _ => false
  | a :: as, b :: bs => a == b && charsStartWith as bs

/-- Python's `needle in hay` substring containment. -/
def charsContain : List Char → List Char → Bool
  | [], needle => charsStartWith [] needle
  | c :: t, needle => charsStartWith (c :: t) needle || charsContain t needle

/-- Substring containment on strings (`strContainsSub hay needle`). -/
def strContainsSub (hay needle : String) : Bool := charsContain hay.data needle.data

/-- Model of evaluating one Django field lookup against a stored value (SQL
semantics: comparisons and LIKE against NULL are false). -/
def cmpVal (lk : Lookup) (stored qv : Val) : Bool :=
  match lk, stored, qv with
  | .iexact, .vstr a, .vstr b => a.toLower == b.toLower
  | .iexact, .vnum a, .vnum b => a == b
  | .iexact, .vbool a, .vbool b => a == b
  | .iexact, .vdate a, .vdate b => a == b
  | .icontains, .vstr a, .vstr b => strContainsSub a.toLower b.toLower
  | .gt, .vnum a, .vnum b => b < a
  | .gte, .vnum a, .vnum b => b ≤ a
  | .lt, .vnum a, .vnum b => a < b
  | .lte, .vnum a, .vnum b => a ≤ b
  | .gt, .vdate a, .vdate b => dtLt b a
  | .gte, .vdate a, .vdate b => dtLe b a
  | .lt, .vdate a, .vdate b => dtLt a b
  | .lte, .vdate a, .vdate b => dtLe a b
  | .isnull, st, .vbool b => (st == Val.vnull) == b
  | .inlist, .vstr a, .vlist l => l.contains a
  | .exact, .vnull, _ => false
  | .exact, a, b => a == b
  | _, _, _ => false

/-- Evaluation of a `Qobj` against a row: whether the row matches the filter. -/
def evalQ (row : Row) : Qobj → Bool
  | .q kwargs => kwargs.all (fun kw => cmpVal kw.2.1 (row kw.1) kw.2.2)
  | .qand a b => evalQ row a && evalQ row b
  | .qor a b => evalQ row a || evalQ row b
  | .qnot a => !(evalQ row a)

/-- Month number of a lowercase month name or abbreviation. -/
def monthNumOf (s : String) : Option Nat :=
  match s with
  | "january" | "jan" => some 1
  | "february" | "feb" => some 2
  | "march" | "mar" => some 3
  | "april" | "apr" => some 4
  | "may" => some 5
  | "june" | "jun" => some 6
  | "july" | "jul" => some 7
  | "august" | "aug" => some 8
  | "september" | "sep" | "sept" => some 9
  | "october" | "oct" => some 10
  | "november" | "nov" => some 11
  | "december" | "dec" => some 12
  | _ => none

/-- The natural number denoted by a nonempty all-digit string. -/
def natOfDigits (s : String) : Option Nat :=
  if s.data ≠ [] ∧ allDigits s.data then some (digitsVal s.data) else none

/-- Model of the external `timelib.strtodatetime` parser, restricted to the
date shapes this development exercises: a bare 4-digit year, numeric
`YYYY-MM` and `YYYY-MM-DD`, and `<monthname> <year>`; other inputs fail. -/
def timelibParse (s : String) : Option DT :=
  let t := s.trim.toLower
  match natOfDigits t with
  | some y => if t.length == 4 then some ⟨y, 1, 1, 0, 0, 0⟩ else none
  | none =>
    match t.splitOn "-" with
    | [ys, ms] =>
       (match natOfDigits ys, natOfDigits ms with
        | some y, some m =>
          if ys.length == 4 ∧ 1 ≤ m ∧ m ≤ 12 then some ⟨y, m, 1, 0, 0, 0⟩ else none
        | _, _ => none)
    | [ys, ms, ds] =>
       (match natOfDigits ys, natOfDigits ms, natOfDigits ds with
        | some y, some m, some d =>
          if ys.length == 4 ∧ 1 ≤ m ∧ m ≤ 12 ∧ 1 ≤ d ∧ d ≤ daysInMonth y m then
            some ⟨y, m, d, 0, 0, 0⟩
          else none
        | _, _, _ => none)
    | _ =>
      match (t.split (fun c => c = ' ')).filter (fun w => w ≠ "") with
      | [w1, w2] =>
         (match monthNumOf w1, natOfDigits w2 with
          | some m, some y => if w2.length == 4 then some ⟨y, m, 1, 0, 0, 0⟩ else none
          | _, _ => none)
      | _ => none

/-- Translation of `modifiers.boolean`. -/
def boolMod (valuestr : String) : Out Bool :=
  if ["true", "t", "yes", "y", "1"].contains valuestr.toLower then .ok true
  else if ["false", "f", "no", "n", "0"].contains valuestr.toLower then .ok false
  else .err ("Invalid boolean value \x27" ++ valuestr ++ "\x27")

/-- Multiplier of a numeric unit suffix, from the `UNITS_NUM` table. -/
def unitMultNum (u : String) : Option ℚ :=
  if ["q", "qa", "quadrillion"].contains u then some 1000000000000000
  else if ["t", "tn", "trillion"].contains u then some 1000000000000
  else if ["b", "bn", "billion"].contains u then some 1000000000
  else if ["m", "million"].contains u then some 1000000
  else if ["k", "thousand"].contains u then some 1000
  else none

/-- Model of the anchored regex match in `utils.convert_units`
(`(-*[0-9\.]+)\s*([a-z]+)`): returns the captured value (leading dashes plus
a digits/dots run) and the unit letters. -/
def matchNumUnit (t : String) : Option (String × String) :=
  let s1 := t.data.span (fun c => c = '-')
  let s2 := s1.2.span (fun c => c.isDigit || c = '.')
  let s3 := s2.2.span (fun c => c.isWhitespace)
  let s4 := s3.2.span (fun c => 'a' ≤ c && c ≤ 'z')
  if s2.1 ≠ [] ∧ s4.1 ≠ [] ∧ s4.2 = [] then
    some (⟨s1.1 ++ s2.1⟩, ⟨s4.1⟩)
  else none

/-- Translation of `modifiers.num`, which wraps `utils.convert_units` on the
`UNITS_NUM` table; every exception inside `convert_units` (including a failed
`float(...)` on the captured value) is re-raised as this one `SearchError`. -/
def numMod (valuestr : String) : Out ℚ :=
  if valuestr == "" then .ok 0
  else
    let t := valuestr.toLower.trim
    let viaUnit : Option ℚ :=
      match matchNumUnit t with
      | some vu =>
         (match unitMultNum vu.2 with
          | some mult =>
             (match pyFloat vu.1 with
              | some x => some (x * mult)
              | none => none)
          | none => none)
      | none => none
    match viaUnit with
    | some x => .ok x
    | none =>
      match pyFloat t with
      | some x => .ok x
      | none => .err ("Unknown number format \x27" ++ valuestr ++ "\x27")

/-- Translation of `modifiers.date`: underscores become spaces, the external
`timelib` parser runs (model: `timelibParse`), and timezone conversion is the
identity; any failure raises the `SearchError` below, whose message shows the
underscore-replaced string because the replacement precedes the failing call
inside the same try-block. -/
def dateMod (valuestr : String) : Out DT :=
  let v2 := valuestr.replace "_" " "
  match timelibParse v2 with
  | some dt => .ok dt
  | none => .err ("Invalid date format \x27" ++ v2 ++ "\x27.")

/-- A duration of time inferred from a date string (`utils.YEAR` etc.). -/
inductive Gran where
  | year
  | month
  | week
  | day
deriving DecidableEq

/-- Translation of `utils.datestr_rdelta`. The checks run in source order; the
outcome is `.crash` on the one path where the Python membership test of
`delim` in the two-character slash-dash string runs with `delim = None`
(a `TypeError`). -/
def datestrRdelta (valuestr : String) : Out (Option Gran) :=
  let delim : Option Char :=
    if valuestr.contains '-' then some '-'
    else if valuestr.contains '/' then some '/'
    else if valuestr.contains '.' then some '.'
    else none
  let datestr :=
    (valuestr.trim.toLower).map (fun c => if c == '/' || c == '.' || c == '-' then ' ' else c)
  if ["last year", "this year", "next year"].contains datestr then .ok (some .year)
  else if ["last month", "this month", "next month"].contains datestr then .ok (some .month)
  else if ["last week", "this week", "next week"].contains datestr then .ok (some .week)
  else if ["yesterday", "today", "tomorrow"].contains datestr then .ok (some .day)
  else
    let strs := (datestr.split (fun c => c.isWhitespace)).filter (fun w => w ≠ "")
    if isYear valuestr then .ok (some .year)
    else if isMonth valuestr then .ok (some .month)
    else
      match strs with
      | [s1, s2] =>
        if isMonth s1 && isYear s2 then .ok (some .month)
        else if isYear s1 && isMonth s2 then .ok (some .month)
        else if isMonth s1 && isDayNum s2 then .ok (some .day)
        else if isDayNum s1 && isMonth s2 then .ok (some .day)
        else if s1 == "last" && isWeekday s2 then .ok (some .day)
        else if s1 == "this" && isWeekday s2 then .ok (some .day)
        else if s1 == "next" && isWeekday s2 then .ok (some .day)
        else .ok none
      | [s1, s2, s3] =>
        if isYear s1 && isMonth s2 && isDayNum s3 then .ok (some .day)
        else if isMonth s1 && isDayNum s2 && isYear s3 then .ok (some .day)
        else if isDayNum s1 && isMonth s2 && isYear s3 then .ok (some .day)
        else if isYear s1 && isMonthNum s2 && isDayNum s3 then .ok (some .day)
        else if isMonthNum s1 && isDayNum s2 && isYear s3 then
          (match delim with
           | none => .crash
           | some c =>
             if c == '/' || c == '-' then .ok (some .day)
             else if isDayNum s1 && isMonthNum s2 && isYear s3 && (delim == some '.') then
               .ok (some .day)
             else .ok none)
        else if isDayNum s1 && isMonthNum s2 && isYear s3 && (delim == some '.') then .ok (some .day)
        else .ok none
      | _ => .ok none

/-- Target granularity of `utils.clear_dt` as the repository calls it. -/
inductive ClearTo where
  | year
  | month
  | day

/-- Translation of `utils.clear_dt` at the three call-site granularities:
every datetime attribute finer than the target is reset (1 for month and day,
0 for the time fields). -/
def clearDt (dt : DT) : ClearTo → DT
  | .year => ⟨dt.year, 1, 1, 0, 0, 0⟩
  | .month => ⟨dt.year, dt.month, 1, 0, 0, 0⟩
  | .day => ⟨dt.year, dt.month, dt.day, 0, 0, 0⟩

/-- Translation of `utils.get_min_max_dates`, whose in-tree body is
`BaseDateField._get_min_max_dates` (basesearchfields.py): derive the
granularity with `datestr_rdelta` and build the half-open window; with no
recognized granularity the max date is `None`. -/
def getMinMaxDates (now : DT) (valuestr : String) (qvalue : DT) : Out (Option DT × Option DT) :=
  match datestrRdelta valuestr with
  | .crash => .crash
  | .err e => .err e
  | .ok g =>
    match g with
    | some .year =>
      let mindate := clearDt qvalue .year
      .ok (some mindate, some (addYearsRd mindate))
    | some .month =>
      let m0 := clearDt qvalue .month
      let mindate := if dtLt now m0 then subYearsRd m0 else m0
      .ok (some mindate, some (addMonths1 mindate))
    | some .week =>
      let mindate := clearDt (subDaysDT ((weekdayPy qvalue + 1) % 7) qvalue) .day
      .ok (some mindate, some (addDaysDT 7 mindate))
    | some .day =>
      let mindate := clearDt qvalue .day
      .ok (some mindate, some (addDaysDT 1 mindate))
    | none => .ok (some qvalue, none)

/-- Translation of `utils.merge_qobjects` (in-tree body: `merge_queries` in
django_searchquery/utils.py): left-reduce the list with `&` or `|`; Python's
`reduce` over an empty list raises `TypeError`, modelled as `.crash`. -/
def mergeQobjects (l : List Qobj) (andjoin : Bool) : Out Qobj :=
  match l with
  | [] => .crash
  | x :: rest => .ok (rest.foldl (fun a b => if andjoin then Qobj.qand a b else Qobj.qor a b) x)

/-- Translation of the `OPERATORS` table of django/searchfields.py; a missing
key is a Python `KeyError`. -/
def OPERATORS : String → Option Lookup
  | "=" => some .iexact
  | ">" => some .gt
  | ">=" => some .gte
  | "<=" => some .lte
  | "<" => some .lt
  | ":" => some .icontains
  | _ => none

/-- The field classes of django/searchfields.py. -/
inductive FType where
  | fbool
  | fdate
  | fnum
  | fstr
deriving DecidableEq

/-- A registered search field: its class, the user-facing search key, the
model field (construction sites default it to the search key), and the
generic flag (always false for `BoolField`/`DateField`, whose constructors do
not accept it). Each class carries its default modifier
(`modifiers.boolean`/`date`/`num`, identity for strings); custom modifiers
are not modelled. -/
structure SField where
  ftype : FType
  searchKey : String
  modelField : String
  generic : Bool
deriving DecidableEq

/-- Translation of `get_qvalue`: run the field's modifier on the raw value. -/
def getQvalue (f : SField) (valuestr : String) : Out Val :=
  match f.ftype with
  | .fstr => .ok (.vstr valuestr)
  | .fbool =>
    (match boolMod valuestr with
     | .ok b => .ok (.vbool b)
     | .err e => .err e
     | .crash => .crash)
  | .fnum =>
    (match numMod valuestr with
     | .ok x => .ok (.vnum x)
     | .err e => .err e
     | .crash => .crash)
  | .fdate =>
    (match dateMod valuestr with
     | .ok d => .ok (.vdate d)
     | .err e => .err e
     | .crash => .crash)

/-- The `~qobject if exclude else qobject` idiom. -/
def applyExclude (exclude : Bool) (qob : Qobj) : Qobj :=
  if exclude then .qnot qob else qob

/-- Translation of `DjangoSearchField.get_subquery_none`. -/
def getSubqueryNone (f : SField) (op : String) (exclude : Bool) : Out Qobj :=
  if op ≠ "=" ∧ op ≠ ":" then .err ("Invalid operator \x27" ++ op ++ "\x27 for None value")
  else .ok (applyExclude exclude (.q [(f.modelField, .isnull, .vbool true)]))

/-- Translation of `DjangoSearchField.get_subquery`, the generic body used by
`StrField` and by `NumField` for non-contains operators. The kwarg suffix is
looked up before the value is coerced, so an operator missing from
`OPERATORS` is a `KeyError` crash even when the value is also bad. -/
def baseGetSubquery (f : SField) (valuestr op : String) (exclude : Bool) : Out Qobj :=
  if isNone valuestr then getSubqueryNone f op exclude
  else
    match OPERATORS op with
    | none => .crash
    | some lk =>
      match getQvalue f valuestr with
      | .ok qv => .ok (applyExclude exclude (.q [(f.modelField, lk, qv)]))
      | .err e => .err e
      | .crash => .crash

/-- The `len(valuestr.split('.')[1]) if '.' in valuestr else 0` count of
digits after the first decimal point. -/
def sigdigsOf (valuestr : String) : Nat :=
  if valuestr.contains '.' then
    (match (valuestr.splitOn ".").get? 1 with
     | some p => p.length
     | none => 0)
  else 0

/-- The qobject `NumField._get_contains_subquery` builds once the modifier has
produced the number `q0`: the negative window always, `|`-joined with the
positive window when the raw token has no leading dash. The float expression
`round(.1 ** sigdigs, sigdigs)` is the exact `(1/10)^sigdigs` in the rational
model. -/
def numContainsQ (mf : String) (valuestr : String) (q0 : ℚ) : Qobj :=
  let ispositive := !(valuestr.startsWith "-")
  let qvalue := |q0|
  let variance : ℚ := ((1 : ℚ)/10) ^ sigdigsOf valuestr
  let negq := Qobj.q [(mf, .lte, .vnum (-qvalue)), (mf, .gt, .vnum (-qvalue - variance))]
  if ispositive then
    .qor negq (.q [(mf, .gte, .vnum qvalue), (mf, .lt, .vnum (qvalue + variance))])
  else negq

/-- Translation of `NumField._get_contains_subquery` (the `exclude` flag is
not consulted there). -/
def containsSubquery (f : SField) (valuestr : String) : Out Qobj :=
  match numMod valuestr with
  | .ok q0 => .ok (numContainsQ f.modelField valuestr q0)
  | .err e => .err e
  | .crash => .crash

/-- Translation of `StrField.get_subquery`. -/
def strGetSubquery (f : SField) (valuestr op : String) (exclude : Bool) : Out Qobj :=
  if isNone valuestr then getSubqueryNone f op exclude
  else if op ≠ "=" ∧ op ≠ ":" then
    .err ("Invalid operator \x27" ++ op ++ "\x27 for string field")
  else baseGetSubquery f valuestr op exclude

/-- Translation of `NumField.get_subquery`. -/
def numGetSubquery (f : SField) (valuestr op : String) (exclude : Bool) : Out Qobj :=
  if isNone valuestr then getSubqueryNone f op exclude
  else if op == ":" then containsSubquery f valuestr
  else baseGetSubquery f valuestr op exclude

/-- Translation of `BoolField.get_subquery`: the modifier runs on the raw
value before the none-check (the first `qvalue = self.get_qvalue(valuestr)`
line), and the kwarg has no lookup suffix. The `operator` argument is never
consulted. -/
def boolGetSubquery (f : SField) (valuestr op : String) (exclude : Bool) : Out Qobj :=
  match getQvalue f valuestr with
  | .err e => .err e
  | .crash => .crash
  | .ok _ =>
    if isNone valuestr then getSubqueryNone f op exclude
    else
      match getQvalue f valuestr with
      | .ok qv => .ok (applyExclude exclude (.q [(f.modelField, .exact, qv)]))
      | .err e => .err e
      | .crash => .crash

/-- Translation of `DateField.get_subquery`: coerce the value, compute the
half-open window, reject a `None` bound, build one `Q` per entry of the
operator's kwargs dict, and merge them with `andjoin = not exclude`. An
operator matching no branch (such as `:`) leaves the dict empty, and merging
the empty list crashes. -/
def dateGetSubquery (now : DT) (f : SField) (valuestr op : String) (exclude : Bool) : Out Qobj :=
  if isNone valuestr then getSubqueryNone f op exclude
  else
    match dateMod valuestr with
    | .err e => .err e
    | .crash => .crash
    | .ok qv =>
      match getMinMaxDates now valuestr qv with
      | .err e => .err e
      | .crash => .crash
      | .ok mm =>
        match mm with
        | (some mindate, some maxdate) =>
          let kwargs : List (String × Lookup × Val) :=
            if op == ">=" || op == ">" then [(f.modelField, .gte, .vdate mindate)]
            else if op == "<=" || op == "<" then [(f.modelField, .lte, .vdate mindate)]
            else if op == "=" then
              [(f.modelField, .gte, .vdate mindate), (f.modelField, .lt, .vdate maxdate)]
            else []
          mergeQobjects (kwargs.map (fun kw => applyExclude exclude (.q [kw]))) (!exclude)
        | _ => .err ("Unknown date format \x27" ++ valuestr ++ "\x27.")

/-- Dispatch of `field.get_subquery` over the field classes. -/
def getSubquery (now : DT) (f : SField) (valuestr op : String) (exclude : Bool) : Out Qobj :=
  match f.ftype with
  | .fstr => strGetSubquery f valuestr op exclude
  | .fnum => numGetSubquery f valuestr op exclude
  | .fbool => boolGetSubquery f valuestr op exclude
  | .fdate => dateGetSubquery now f valuestr op exclude

example : fromOrdinal (toOrdinal ⟨2024, 2, 29, 0, 0, 0⟩) = (2024, 2, 29) := by decide
example : fromOrdinal (toOrdinal ⟨2025, 6, 15, 0, 0, 0⟩) = (2025, 6, 15) := by decide
example : addDaysDT 1 ⟨2023, 12, 31, 5, 0, 0⟩ = ⟨2024, 1, 1, 5, 0, 0⟩ := by decide
example : weekdayPy ⟨2024, 1, 1, 0, 0, 0⟩ = 0 := by decide
example : weekdayPy ⟨2026, 10, 11, 0, 0, 0⟩ = 6 := by decide
example : pyFloat "-1.50" = some (-(3/2 : ℚ)) := by with_unfolding_all decide
example : pyIntOpt " 2024 " = some 2024 := by with_unfolding_all decide
example : isMonth "March" = true := by with_unfolding_all decide
example : strContainsSub "username" "user" = true := by with_unfolding_all decide


/-- The mutable `BaseSearch` attributes the compilation observes:
`self._error` and `self._order_by`. (`self._searchstr` and the cached
`self._qobject` are never read back by any later decision, so they are not
tracked.) -/
structure SState where
  error : Option String
  orderBy : List String
deriving DecidableEq

/-- The `DjangoSearch.NORESULTS` sentinel `Q(pk__in=[])`. -/
def NORESULTS : Qobj := .q [("pk", .inlist, .vlist [])]

/-- The `DjangoSearch.NOOP` sentinel `Q()`. -/
def NOOP : Qobj := .q []

/-- A parse-tree node as `BaseSearch._get_qobject` dispatches on it: the named
groups `search_column`, `search_column_in`, `search_all_columns`, `orderby`,
the `and`/`or`/`not` operator nodes, and the top-level `root` result. The
`negated` flag models the optional leading dash token that makes a column
group's length 4 (respectively 2 for all-column and order-by groups); the
dash is the token joined back for `numvaluestr` in `_qs_search_all_columns`.
The `op` of `searchColumnIn` is the matched keyword, `in` or `not in`. -/
inductive Node where
  | root (children : List Node)
  | nAnd (operands : List Node)
  | nOr (operands : List Node)
  | nNot (operands : List Node)
  | searchColumn (negated : Bool) (key op valuestr : String)
  | searchColumnIn (negated : Bool) (key op : String) (values : List String)
  | searchAllColumns (negated : Bool) (valuestr : String)
  | orderByCol (descending : Bool) (key : String)

/-- Insert into an association list with Python-dict semantics: an existing
key keeps its position and takes the new value, a new key goes at the end. -/
def dictInsert (d : List (String × SField)) (k : String) (f : SField) : List (String × SField) :=
  match d with
  | [] => [(k, f)]
  | p :: rest => if p.1 == k then (p.1, f) :: rest else p :: dictInsert rest k f

/-- The registry `{f.search_key.lower(): f for f in fields}` built by
`BaseSearch.__init__`. -/
def mkFields (fs : List SField) : List (String × SField) :=
  fs.foldl (fun d f => dictInsert d f.searchKey.toLower f) []

/-- Dictionary lookup (`self.fields.get(key)`). -/
def lookupDict (d : List (String × SField)) (k : String) : Option SField :=
  match d with
  | [] => none
  | p :: rest => if p.1 == k then some p.2 else lookupDict rest k

/-- The `BaseSearch` construction arguments, plus the clock that
`datetime.now(tz)` reads during date handling. -/
structure Config where
  fields : List (String × SField)
  allowPartialFieldnames : Bool
  now : DT

/-- Translation of `BaseSearch._get_field`: exact lookup of the lowercased
key, then (when partial field names are allowed) the containment scan
`key in k` over registered keys — one match resolves, two or more raise the
ambiguous-field error, and otherwise the unknown-field error is raised. -/
def getField (cfg : Config) (searchkey : String) : Out SField :=
  let key := searchkey.toLower
  match lookupDict cfg.fields key with
  | some f => .ok f
  | none =>
    if cfg.allowPartialFieldnames then
      match (cfg.fields.filter (fun p => strContainsSub p.1 key)).map (fun p => p.2) with
      | [f] => .ok f
      | _ :: _ :: _ => .err ("Ambiguous field \x27" ++ searchkey ++ "\x27")
      | [] => .err ("Unknown field \x27" ++ searchkey ++ "\x27")
    else .err ("Unknown field \x27" ++ searchkey ++ "\x27")

/-- The per-value loop of `_qs_search_column_in`: every value is compiled
with the hard-coded `=` operator; a raised error aborts the loop. -/
def subqueryList (now : DT) (f : SField) (exclude : Bool) : List String → Out (List Qobj)
  | [] => .ok []
  | v :: rest =>
    match getSubquery now f v "=" exclude with
    | .ok q1 =>
      (match subqueryList now f exclude rest with
       | .ok qs => .ok (q1 :: qs)
       | .err e => .err e
       | .crash => .crash)
    | .err e => .err e
    | .crash => .crash

/-- A per-field subquery loop of `_qs_search_all_columns`; a raised error
aborts the loop. -/
def subAll (now : DT) (fs : List SField) (v op : String) (exclude : Bool) : Out (List Qobj) :=
  match fs with
  | [] => .ok []
  | f :: rest =>
    match getSubquery now f v op exclude with
    | .ok q1 =>
      (match subAll now rest v op exclude with
       | .ok qs => .ok (q1 :: qs)
       | .err e => .err e
       | .crash => .crash)
    | .err e => .err e
    | .crash => .crash

/-- Translation of `_qs_search_all_columns` after its own exclude flip: `:`
subqueries over the generic string fields; when the value parses as a number,
`:` subqueries over the generic numeric fields against the re-joined token
(the dash re-attached when the group carried one); `NORESULTS` when no
subquery was produced, otherwise the merge with `andjoin = exclude`. -/
def allColumnsSub (cfg : Config) (exclude : Bool) (neg : Bool) (v : String) : Out Qobj :=
  let strfields := (cfg.fields.map (fun p => p.2)).filter (fun f => f.ftype == .fstr && f.generic)
  match subAll cfg.now strfields v ":" exclude with
  | .err e => .err e
  | .crash => .crash
  | .ok qs1 =>
    if isNumber v then
      let nv := (if neg then "-" else "") ++ v
      let numfields := (cfg.fields.map (fun p => p.2)).filter (fun f => f.ftype == .fnum && f.generic)
      match subAll cfg.now numfields nv ":" exclude with
      | .err e => .err e
      | .crash => .crash
      | .ok qs2 =>
        (match qs1 ++ qs2 with
         | [] => .ok NORESULTS
         | l => mergeQobjects l exclude)
    else
      (match qs1 with
       | [] => .ok NORESULTS
       | l => mergeQobjects l exclude)

/-- The try/except of `_get_qobject`: a raised `SearchError` is caught, its
message is stored in `self._error`, and the `NORESULTS` sentinel is returned;
raised non-`SearchError` exceptions propagate. -/
def catchSearch (p : SState × Out Qobj) : SState × Out Qobj :=
  match p with
  | (s1, .err msg) => ({ s1 with error := some msg }, .ok NORESULTS)
  | other => other

/-- Merge an already-propagated list result (`utils.merge_qobjects` applied
under the surrounding exception flow). -/
def bindMerge (r : Out (List Qobj)) (andjoin : Bool) : Out Qobj :=
  match r with
  | .ok qs => mergeQobjects qs andjoin
  | .err e => .err e
  | .crash => .crash

mutual
/-- The body of one `_get_qobject` dispatch (the inside of its try-block):
`_qs_root`, `_qs_and`, `_qs_or`, `_qs_not`, `_qs_search_column`,
`_qs_search_column_in`, `_qs_search_all_columns` and `_qs_orderby`, each as in
basesearch.py. Child nodes of `root`/`and`/`or`/`not` are compiled through
the catching `_get_qobject` itself (`qobjListRun`). -/
def dispatchQ (cfg : Config) (s : SState) (node : Node) (exclude : Bool) : SState × Out Qobj :=
  match node with
  | .root cs =>
    let r := qobjListRun cfg s cs exclude
    (r.1, bindMerge r.2 (!exclude))
  | .nAnd cs =>
    let r := qobjListRun cfg s cs exclude
    (r.1, bindMerge r.2 (!exclude))
  | .nOr cs =>
    let r := qobjListRun cfg s cs exclude
    (r.1, bindMerge r.2 exclude)
  | .nNot cs =>
    let r := qobjListRun cfg s cs (!exclude)
    (r.1, bindMerge r.2 false)
  | .searchColumn neg k op v =>
    let ex := if neg then !exclude else exclude
    (s, match getField cfg k with
        | .ok f => getSubquery cfg.now f v op ex
        | .err e => .err e
        | .crash => .crash)
  | .searchColumnIn neg k op vs =>
    let ex0 := if neg then !exclude else exclude
    let ex := if op == "not in" then !ex0 else ex0
    (s, match getField cfg k with
        | .ok f => bindMerge (subqueryList cfg.now f ex vs) ex
        | .err e => .err e
        | .crash => .crash)
  | .searchAllColumns neg v =>
    let ex := if neg then !exclude else exclude
    (s, allColumnsSub cfg ex neg v)
  | .orderByCol desc k =>
    match getField cfg k with
    | .ok f =>
      ({ s with orderBy := s.orderBy ++ [(if desc then "-" else "") ++ f.modelField] }, .ok NOOP)
    | .err e => (s, .err e)
    | .crash => (s, .crash)
/-- The child loops of `_qs_root`/`_qs_and`/`_qs_or`/`_qs_not`: each child
goes through the catching `_get_qobject`, and a propagating exception aborts
the loop. -/
def qobjListRun (cfg : Config) (s : SState) (nodes : List Node) (exclude : Bool) :
    SState × Out (List Qobj) :=
  match nodes with
  | [] => (s, .ok [])
  | n :: rest =>
    match catchSearch (dispatchQ cfg s n exclude) with
    | (s1, .ok q1) =>
      (match qobjListRun cfg s1 rest exclude with
       | (s2, .ok qs) => (s2, .ok (q1 :: qs))
       | (s2, .err e) => (s2, .err e)
       | (s2, .crash) => (s2, .crash))
    | (s1, .err e) => (s1, .err e)
    | (s1, .crash) => (s1, .crash)
end

/-- Translation of `BaseSearch._get_qobject` on an already-parsed node: run
the dispatch and catch any raised `SearchError`. -/
def getQobject (cfg : Config) (s : SState) (node : Node) (exclude : Bool) : SState × Out Qobj :=
  catchSearch (dispatchQ cfg s node exclude)

/-- A Django queryset as `get_queryset` manipulates it: the accumulated
`.filter(...)` arguments over the base queryset, and the `.order_by(...)`
arguments when applied. -/
structure QuerySet where
  filters : List Qobj
  ordering : List String
deriving DecidableEq

/-- Translation of `BaseSearch.get_queryset`: reset `_order_by` and `_error`,
and when the search string is non-blank (`searchstr and searchstr.strip()`)
filter by the compiled qobject of its parse `node`; finally apply `order_by`
when any order-by argument accumulated. -/
def getQueryset (cfg : Config) (qs : QuerySet) (searchstr : String) (node : Node) :
    SState × Out QuerySet :=
  let s : SState := ⟨none, []⟩
  if searchstr ≠ "" ∧ searchstr.trim ≠ "" then
    match getQobject cfg s node false with
    | (s1, .ok qob) =>
      let qs1 : QuerySet := ⟨qs.filters ++ [qob], qs.ordering⟩
      (s1, .ok (if s1.orderBy.isEmpty then qs1 else ⟨qs1.filters, s1.orderBy⟩))
    | (s1, .err e) => (s1, .err e)
    | (s1, .crash) => (s1, .crash)
  else
    (s, .ok (if s.orderBy.isEmpty then qs else ⟨qs.filters, s.orderBy⟩))

/-! Helper unfolding lemmas for the mutually recursive compiler functions,
and evaluation lemmas shared by the claim theorems below. -/

theorem qobjListRun_nil (cfg : Config) (s : SState) (ex : Bool) :
    qobjListRun cfg s [] ex = (s, .ok []) := by
  simp only [qobjListRun]

theorem qobjListRun_cons (cfg : Config) (s : SState) (n : Node) (rest : List Node) (ex : Bool) :
    qobjListRun cfg s (n :: rest) ex =
      match catchSearch (dispatchQ cfg s n ex) with
      | (s1, .ok q1) =>
        (match qobjListRun cfg s1 rest ex with
         | (s2, .ok qs) => (s2, .ok (q1 :: qs))
         | (s2, .err e) => (s2, .err e)
         | (s2, .crash) => (s2, .crash))
      | (s1, .err e) => (s1, .err e)
      | (s1, .crash) => (s1, .crash) := by
  simp only [qobjListRun, catchSearch]

theorem dispatchQ_nAnd (cfg : Config) (s : SState) (cs : List Node) (ex : Bool) :
    dispatchQ cfg s (.nAnd cs) ex =
      ((qobjListRun cfg s cs ex).1, bindMerge (qobjListRun cfg s cs ex).2 (!ex)) := by
  simp only [dispatchQ]

theorem dispatchQ_nOr (cfg : Config) (s : SState) (cs : List Node) (ex : Bool) :
    dispatchQ cfg s (.nOr cs) ex =
      ((qobjListRun cfg s cs ex).1, bindMerge (qobjListRun cfg s cs ex).2 ex) := by
  simp only [dispatchQ]

theorem dispatchQ_nNot (cfg : Config) (s : SState) (cs : List Node) (ex : Bool) :
    dispatchQ cfg s (.nNot cs) ex =
      ((qobjListRun cfg s cs (!ex)).1, bindMerge (qobjListRun cfg s cs (!ex)).2 false) := by
  simp only [dispatchQ]

theorem dispatchQ_searchColumnIn (cfg : Config) (s : SState) (k op : String)
    (vs : List String) (ex : Bool) :
    dispatchQ cfg s (.searchColumnIn false k op vs) ex =
      (s, match getField cfg k with
          | .ok f => bindMerge (subqueryList cfg.now f (if op == "not in" then !ex else ex) vs)
                       (if op == "not in" then !ex else ex)
          | .err e => .err e
          | .crash => .crash) := by
  simp only [dispatchQ]
  cases h : (op == "not in") <;> simp [h]

/-- When `get_subquery` succeeds with `=` under both polarities of `exclude`,
the two results evaluate to pointwise boolean negations of each other. -/
theorem getSubquery_eq_neg_eval (now : DT) (f : SField) (v : String) (qf qt : Qobj)
    (h0 : getSubquery now f v "=" false = .ok qf)
    (h1 : getSubquery now f v "=" true = .ok qt)
    (row : Row) : evalQ row qt = !(evalQ row qf) := by
  rcases f with ⟨ft, sk, mf, g⟩
  cases ft
  case fstr =>
    simp only [getSubquery, strGetSubquery, baseGetSubquery, getSubqueryNone, getQvalue,
      OPERATORS, applyExclude] at h0 h1
    by_cases hn : isNone v = true
    · simp [hn] at h0 h1
      subst h0; subst h1; simp [evalQ]
    · simp [Bool.not_eq_true] at hn
      simp [hn] at h0 h1
      subst h0; subst h1; simp [evalQ]
  case fnum =>
    simp only [getSubquery, numGetSubquery, baseGetSubquery, getSubqueryNone, getQvalue,
      OPERATORS, applyExclude] at h0 h1
    by_cases hn : isNone v = true
    · simp [hn] at h0 h1
      subst h0; subst h1; simp [evalQ]
    · simp [Bool.not_eq_true] at hn
      simp [hn] at h0 h1
      rcases hm : numMod v with x | e | _ <;> simp [hm] at h0 h1
      subst h0; subst h1; simp [evalQ]
  case fbool =>
    simp only [getSubquery, boolGetSubquery, getSubqueryNone, getQvalue, applyExclude] at h0 h1
    rcases hb : boolMod v with b | e | _ <;> simp [hb] at h0 h1
    by_cases hn : isNone v = true
    · simp [hn] at h0 h1
      subst h0; subst h1; simp [evalQ]
    · simp [Bool.not_eq_true] at hn
      simp [hn] at h0 h1
      subst h0; subst h1; simp [evalQ]
  case fdate =>
    simp only [getSubquery, dateGetSubquery, getSubqueryNone, applyExclude] at h0 h1
    by_cases hn : isNone v = true
    · simp [hn] at h0 h1
      subst h0; subst h1; simp [evalQ]
    · simp [Bool.not_eq_true] at hn
      simp [hn] at h0 h1
      rcases hd : dateMod v with qv | e | _ <;> simp [hd] at h0 h1
      rcases hm : getMinMaxDates now v qv with mm | e | _ <;> simp [hm] at h0 h1
      rcases mm with ⟨mino, maxo⟩
      rcases mino with _ | mind <;> rcases maxo with _ | maxd <;>
        simp [mergeQobjects] at h0 h1
      subst h0; subst h1; simp [evalQ]

/-- A successful `subqueryList` run on a nonempty value list decomposes into
a successful head subquery and a successful tail run. -/
theorem subqueryList_cons_elim (now : DT) (f : SField) (ex : Bool) (v : String)
    (vs : List String) (l : List Qobj)
    (h : subqueryList now f ex (v :: vs) = .ok l) :
    ∃ q qs, l = q :: qs ∧ getSubquery now f v "=" ex = .ok q
      ∧ subqueryList now f ex vs = .ok qs := by
  simp only [subqueryList] at h
  rcases hq : getSubquery now f v "=" ex with q | e | _ <;> simp [hq] at h
  rcases hr : subqueryList now f ex vs with qs | e | _ <;> simp [hr] at h
  exact ⟨q, qs, h.symm, rfl, rfl⟩

/-- Folding the `exclude = true` subqueries with `&` evaluates to the boolean
negation of folding the `exclude = false` subqueries with `|`, for any pair of
accumulators that are themselves pointwise negations. -/
theorem subqueryList_neg_eval (now : DT) (f : SField) (vs : List String) :
    ∀ (l l' : List Qobj) (a a' : Qobj),
    subqueryList now f false vs = .ok l →
    subqueryList now f true vs = .ok l' →
    ∀ row : Row, evalQ row a' = !(evalQ row a) →
    evalQ row (l'.foldl .qand a') = !(evalQ row (l.foldl .qor a)) := by
  induction vs with
  | nil =>
    intro l l' a a' h0 h1 row ha
    simp only [subqueryList] at h0 h1
    simp only [Out.ok.injEq] at h0 h1
    subst h0; subst h1
    simpa using ha
  | cons v rest ih =>
    intro l l' a a' h0 h1 row ha
    obtain ⟨q, qs, rfl, hq, hrest⟩ := subqueryList_cons_elim now f false v rest l h0
    obtain ⟨q', qs', rfl, hq', hrest'⟩ := subqueryList_cons_elim now f true v rest l' h1
    have hqneg := getSubquery_eq_neg_eval now f v q q' hq hq' row
    have hacc : evalQ row (Qobj.qand a' q') = !(evalQ row (Qobj.qor a q)) := by
      simp [evalQ, hqneg, ha, Bool.not_or]
    simpa using ih qs qs' (Qobj.qor a q) (Qobj.qand a' q') hrest hrest' row hacc

/-- The row whose model field `mf` stores the number `x` and whose other
columns are all absent. -/
def rowNum (mf : String) (x : ℚ) : Row :=
  fun col => if col == mf then .vnum x else .vnull

/-! Concrete registries for the closed theorems, drawn from the repository's
own test registry (tests/conftest.py) and the spec's examples. -/

def fTestpath : SField := ⟨.fstr, "testpath", "testpath", true⟩

def fCount : SField := ⟨.fnum, "count", "count", false⟩

def fAmount : SField := ⟨.fnum, "amount", "amount", false⟩

def fDate : SField := ⟨.fdate, "date", "date", false⟩

def fRunning : SField := ⟨.fbool, "running", "running", false⟩

def fUsername : SField := ⟨.fstr, "username", "username", false⟩

def fUserid : SField := ⟨.fstr, "userid", "userid", false⟩

def now0 : DT := ⟨2025, 6, 15, 12, 0, 0⟩

def cfg0 : Config := ⟨mkFields [fTestpath, fCount, fAmount, fDate, fRunning], true, now0⟩

def cfgU : Config := ⟨mkFields [fUsername], true, now0⟩

def cfgUU : Config := ⟨mkFields [fUsername, fUserid], true, now0⟩

def s0 : SState := ⟨none, []⟩

/-- Definition following the claim wording of C7 (a refinement target, not a
translation of the source): the registered fields whose key the lowercased
search key is a prefix of. -/
def specPrefixMatches (cfg : Config) (searchkey : String) : List SField :=
  (cfg.fields.filter (fun p => p.1.startsWith searchkey.toLower)).map (fun p => p.2)

/-- C1 counterexample: in the query `bogus=1 OR testpath=foo` the unknown
field raises a lookup error, but the error is caught at the failing clause
(not at the whole query): the compiled predicate is
`NORESULTS | Q(testpath__iexact, foo)` — the well-formed sibling clause
survives in the output and the returned predicate is not the `NORESULTS`
sentinel, contrary to the claim. -/
theorem c1_counterexample :
    getQobject cfg0 s0
        (.root [.nOr [.searchColumn false "bogus" "=" "1",
                      .searchColumn false "testpath" "=" "foo"]]) false
      = (⟨some "Unknown field \x27bogus\x27", []⟩,
         .ok (.qor NORESULTS (.q [("testpath", .iexact, .vstr "foo")])))
    ∧ Qobj.qor NORESULTS (.q [("testpath", .iexact, .vstr "foo")]) ≠ NORESULTS := by
  with_unfolding_all decide

/-- C1 (amended): a lookup or coercion error is caught per clause inside
`_get_qobject`: the error is recorded, the offending clause's subtree
compiles to the `NORESULTS` sentinel, and compilation continues — well-formed
sibling subqueries survive, merged with the sentinel. Only when the failing
clause is the sole content of the query does the whole predicate collapse to
`NORESULTS`. -/
theorem c1_amended :
    getQobject cfg0 s0
        (.root [.nOr [.searchColumn false "bogus" "=" "1",
                      .searchColumn false "testpath" "=" "foo"]]) false
      = (⟨some "Unknown field \x27bogus\x27", []⟩,
         .ok (.qor NORESULTS (.q [("testpath", .iexact, .vstr "foo")])))
    ∧ getQobject cfg0 s0
        (.root [.nAnd [.searchColumn false "bogus" "=" "1",
                       .searchColumn false "testpath" "=" "foo"]]) false
      = (⟨some "Unknown field \x27bogus\x27", []⟩,
         .ok (.qand NORESULTS (.q [("testpath", .iexact, .vstr "foo")])))
    ∧ getQobject cfg0 s0 (.root [.searchColumn false "bogus" "=" "1"]) false
      = (⟨some "Unknown field \x27bogus\x27", []⟩, .ok NORESULTS) := by
  with_unfolding_all decide

/-- C2 counterexample: the grammar accepts `:` on any column, but
`DateField.get_subquery` has no `:` branch — its kwargs dict stays empty,
`merge_qobjects` reduces an empty list, and the resulting `TypeError` is not
a `SearchError`: it escapes `get_queryset` as an uncaught exception for the
query `date:2024`. -/
theorem c2_counterexample :
    getQueryset cfg0 ⟨[], []⟩ "date:2024" (.root [.searchColumn false "date" ":" "2024"])
      = (s0, .crash) := by
  with_unfolding_all decide

/-- C2 (amended): a raised `SearchError` (or parse error) never escapes
`_get_qobject` — its outcome is never `Out.err` — but non-`SearchError`
exceptions do escape across the public boundary: `date:2024` crashes the
compilation with a `TypeError` instead of recording an error and returning
`NORESULTS`. -/
theorem c2_amended (cfg : Config) (s : SState) (node : Node) (exclude : Bool) (msg : String) :
    (getQobject cfg s node exclude).2 ≠ Out.err msg
    ∧ getQobject cfg0 s0 (.root [.searchColumn false "date" ":" "2024"]) false = (s0, .crash) := by
  constructor
  · unfold getQobject catchSearch
    rcases h : dispatchQ cfg s node exclude with ⟨s1, r⟩
    cases r <;> simp
  · with_unfolding_all decide

/-- C3 counterexample: `datestr_rdelta` recognizes no granularity in the
numeric year-month string `2024-03` (its two-token branch tests month *names*
only), so `_get_min_max_dates` returns no upper bound and
`DateField.get_subquery` raises the unknown-date-format `SearchError` — at
compile level the clause `date=2024-03` records the error and returns
`NORESULTS` instead of compiling to the claimed range
`[2024-03-01, 2024-04-01)`. -/
theorem c3_counterexample :
    getSubquery now0 fDate "2024-03" "=" false
      = .err "Unknown date format \x272024-03\x27."
    ∧ getQobject cfg0 s0 (.root [.searchColumn false "date" "=" "2024-03"]) false
      = (⟨some "Unknown date format \x272024-03\x27.", []⟩, .ok NORESULTS) := by
  with_unfolding_all decide

/-- C3 (amended): Date `=` expands to the half-open window of the value's
recognized granularity: `date=2024` compiles to
`[2024-01-01T00:00:00, 2025-01-01T00:00:00)`, and `date="march 2024"` (with
the clock past the month start) compiles to `[2024-03-01, 2024-04-01)`; but
the numeric year-month form `2024-03` is not a granularity `datestr_rdelta`
recognizes, so `date=2024-03` raises the unknown-date-format error instead of
compiling to a month range. -/
theorem c3_amended :
    getSubquery now0 fDate "2024" "=" false =
      .ok (.qand (.q [("date", .gte, .vdate ⟨2024, 1, 1, 0, 0, 0⟩)])
                 (.q [("date", .lt, .vdate ⟨2025, 1, 1, 0, 0, 0⟩)]))
    ∧ getSubquery now0 fDate "march 2024" "=" false =
      .ok (.qand (.q [("date", .gte, .vdate ⟨2024, 3, 1, 0, 0, 0⟩)])
                 (.q [("date", .lt, .vdate ⟨2024, 4, 1, 0, 0, 0⟩)]))
    ∧ getSubquery now0 fDate "2024-03" "=" false
      = .err "Unknown date format \x272024-03\x27." := by
  with_unfolding_all decide

/-- C4: for a Num field and the `:` operator on raw token `t` denoting value
`v`, with `sigdigs` the count of digits after the decimal point of `t` and
`variance = (1/10)^sigdigs` (the exact value of `round(.1**sigdigs,
sigdigs)`), the compiled predicate accepts a stored value `x` exactly when
`x` lies in the negative mirror window `-|v| - variance < x ≤ -|v|`, or — when
`t` carries no leading dash — in the positive window
`|v| ≤ x < |v| + variance`. -/
theorem c4_num_fuzzy_contains (now : DT) (k mf t : String) (g ex : Bool) (v x : ℚ)
    (hn : isNone t = false) (hv : numMod t = .ok v) :
    getSubquery now ⟨.fnum, k, mf, g⟩ t ":" ex = .ok (numContainsQ mf t v)
    ∧ (evalQ (rowNum mf x) (numContainsQ mf t v) = true ↔
        ((-|v| - ((1 : ℚ)/10) ^ sigdigsOf t < x ∧ x ≤ -|v|)
         ∨ (t.startsWith "-" = false ∧ |v| ≤ x ∧ x < |v| + ((1 : ℚ)/10) ^ sigdigsOf t))) := by
  constructor
  · simp [getSubquery, numGetSubquery, hn, containsSubquery, hv]
  · unfold numContainsQ
    by_cases hs : t.startsWith "-"
    · simp [hs, evalQ, rowNum, cmpVal, and_comm]
    · simp [hs, evalQ, rowNum, cmpVal, and_comm]

/-- C4 witness: the fuzzy-contains theorem applied to the query `count:5` and
the stored value `5`. -/
theorem c4_num_fuzzy_contains_witness :
    getSubquery now0 ⟨.fnum, "count", "count", false⟩ "5" ":" false
      = .ok (numContainsQ "count" "5" 5)
    ∧ (evalQ (rowNum "count" 5) (numContainsQ "count" "5" 5) = true ↔
        ((-|(5 : ℚ)| - ((1 : ℚ)/10) ^ sigdigsOf "5" < (5 : ℚ) ∧ (5 : ℚ) ≤ -|(5 : ℚ)|)
         ∨ ("5".startsWith "-" = false ∧ |(5 : ℚ)| ≤ (5 : ℚ)
            ∧ (5 : ℚ) < |(5 : ℚ)| + ((1 : ℚ)/10) ^ sigdigsOf "5"))) :=
  c4_num_fuzzy_contains now0 "count" "count" "5" false false 5 5
    (by with_unfolding_all decide) (by with_unfolding_all decide)

/-- C5: De Morgan — compiling `NOT (A AND B)` produces exactly the same state
and predicate as compiling `(NOT A) OR (NOT B)`, and dually compiling
`NOT (A OR B)` produces the same as `(NOT A) AND (NOT B)`: the `exclude` flag
threads the negation to the leaves, so both sides lower to the identical
merge of the operand compilations. -/
theorem c5_de_morgan (cfg : Config) (s : SState) (A B : Node) :
    getQobject cfg s (.nNot [.nAnd [A, B]]) false
      = getQobject cfg s (.nOr [.nNot [A], .nNot [B]]) false
    ∧ getQobject cfg s (.nNot [.nOr [A, B]]) false
      = getQobject cfg s (.nAnd [.nNot [A], .nNot [B]]) false := by
  constructor
  · unfold getQobject
    simp only [dispatchQ_nNot, dispatchQ_nAnd, dispatchQ_nOr, qobjListRun_cons, qobjListRun_nil,
      Bool.not_false, Bool.not_true]
    rcases hA : dispatchQ cfg s A true with ⟨sA, rA⟩
    rcases rA with qa | e | _
    · simp only [hA, catchSearch]
      rcases hB : dispatchQ cfg sA B true with ⟨sB, rB⟩
      rcases rB with qb | e | _ <;> simp [hB, catchSearch, bindMerge, mergeQobjects]
    · simp only [hA, catchSearch]
      rcases hB : dispatchQ cfg { error := some e, orderBy := sA.orderBy : SState } B true
        with ⟨sB, rB⟩
      rcases rB with qb | e2 | _ <;> simp [hB, catchSearch, bindMerge, mergeQobjects]
    · simp [hA, catchSearch, bindMerge, mergeQobjects]
  · unfold getQobject
    simp only [dispatchQ_nNot, dispatchQ_nAnd, dispatchQ_nOr, qobjListRun_cons, qobjListRun_nil,
      Bool.not_false, Bool.not_true]
    rcases hA : dispatchQ cfg s A true with ⟨sA, rA⟩
    rcases rA with qa | e | _
    · simp only [hA, catchSearch]
      rcases hB : dispatchQ cfg sA B true with ⟨sB, rB⟩
      rcases rB with qb | e | _ <;> simp [hB, catchSearch, bindMerge, mergeQobjects]
    · simp only [hA, catchSearch]
      rcases hB : dispatchQ cfg { error := some e, orderBy := sA.orderBy : SState } B true
        with ⟨sB, rB⟩
      rcases rB with qb | e2 | _ <;> simp [hB, catchSearch, bindMerge, mergeQobjects]
    · simp [hA, catchSearch, bindMerge, mergeQobjects]

/-- C6: `f in (v0, vs...)` lowers to the `|`-join of the per-value `=`
subqueries, `f not in (v0, vs...)` lowers to the `&`-join of the per-value
negated `=` subqueries, the latter evaluates as the boolean negation of the
former on every row, and an enclosing `NOT` flips the exclusion once more so
`NOT (f not in (...))` compiles identically to the plain `f in (...)`. -/
theorem c6_in_lowering (cfg : Config) (s : SState) (k : String) (f : SField)
    (v0 : String) (vs : List String) (q0 q0n : Qobj) (qs qsn : List Qobj)
    (hf : getField cfg k = .ok f)
    (hpos : subqueryList cfg.now f false (v0 :: vs) = .ok (q0 :: qs))
    (hneg : subqueryList cfg.now f true (v0 :: vs) = .ok (q0n :: qsn)) :
    getQobject cfg s (.searchColumnIn false k "in" (v0 :: vs)) false
      = (s, .ok (qs.foldl .qor q0))
    ∧ getQobject cfg s (.searchColumnIn false k "not in" (v0 :: vs)) false
      = (s, .ok (qsn.foldl .qand q0n))
    ∧ (∀ row, evalQ row (qsn.foldl .qand q0n) = !(evalQ row (qs.foldl .qor q0)))
    ∧ getQobject cfg s (.nNot [.searchColumnIn false k "not in" (v0 :: vs)]) false
      = getQobject cfg s (.searchColumnIn false k "in" (v0 :: vs)) false := by
  have hin : getQobject cfg s (.searchColumnIn false k "in" (v0 :: vs)) false
      = (s, .ok (qs.foldl .qor q0)) := by
    unfold getQobject
    rw [dispatchQ_searchColumnIn]
    simp [hf, hpos, bindMerge, mergeQobjects, catchSearch]
  have hnotin : getQobject cfg s (.searchColumnIn false k "not in" (v0 :: vs)) false
      = (s, .ok (qsn.foldl .qand q0n)) := by
    unfold getQobject
    rw [dispatchQ_searchColumnIn]
    simp [hf, hneg, bindMerge, mergeQobjects, catchSearch]
  refine ⟨hin, hnotin, ?_, ?_⟩
  · intro row
    obtain ⟨qh, qt, he, hq, hrest⟩ := subqueryList_cons_elim cfg.now f false v0 vs _ hpos
    obtain ⟨qh', qt', he', hq', hrest'⟩ := subqueryList_cons_elim cfg.now f true v0 vs _ hneg
    obtain ⟨rfl, rfl⟩ : q0 = qh ∧ qs = qt := by
      refine ⟨?_, ?_⟩ <;> injection he
    obtain ⟨rfl, rfl⟩ : q0n = qh' ∧ qsn = qt' := by
      refine ⟨?_, ?_⟩ <;> injection he'
    exact subqueryList_neg_eval cfg.now f vs _ _ q0 q0n hrest hrest' row
      (getSubquery_eq_neg_eval cfg.now f v0 q0 q0n hq hq' row)
  · rw [hin]
    unfold getQobject
    rw [dispatchQ_nNot, qobjListRun_cons]
    conv_lhs => rw [dispatchQ_searchColumnIn]
    simp [hf, hpos, bindMerge, mergeQobjects, catchSearch, qobjListRun_nil]

/-- C6 witness: the IN-lowering theorem applied to `testpath in (a, b)` under
the concrete registry. -/
theorem c6_in_lowering_witness :
    getQobject cfg0 s0 (.searchColumnIn false "testpath" "in" ["a", "b"]) false
      = (s0, .ok ([Qobj.q [("testpath", .iexact, .vstr "b")]].foldl .qor
                  (.q [("testpath", .iexact, .vstr "a")])))
    ∧ getQobject cfg0 s0 (.searchColumnIn false "testpath" "not in" ["a", "b"]) false
      = (s0, .ok ([Qobj.qnot (.q [("testpath", .iexact, .vstr "b")])].foldl .qand
                  (.qnot (.q [("testpath", .iexact, .vstr "a")]))))
    ∧ (∀ row, evalQ row ([Qobj.qnot (.q [("testpath", .iexact, .vstr "b")])].foldl .qand
                  (.qnot (.q [("testpath", .iexact, .vstr "a")])))
        = !(evalQ row ([Qobj.q [("testpath", .iexact, .vstr "b")]].foldl .qor
                  (.q [("testpath", .iexact, .vstr "a")]))))
    ∧ getQobject cfg0 s0
        (.nNot [.searchColumnIn false "testpath" "not in" ["a", "b"]]) false
      = getQobject cfg0 s0 (.searchColumnIn false "testpath" "in" ["a", "b"]) false :=
  c6_in_lowering cfg0 s0 "testpath" fTestpath "a" ["b"]
    (.q [("testpath", .iexact, .vstr "a")]) (.qnot (.q [("testpath", .iexact, .vstr "a")]))
    [.q [("testpath", .iexact, .vstr "b")]] [.qnot (.q [("testpath", .iexact, .vstr "b")])]
    (by with_unfolding_all decide) (by with_unfolding_all decide)
    (by with_unfolding_all decide)

/-- C7 counterexample: with only `username` registered and partial matching
enabled, the key `name` is a prefix of no registered key — under the claim's
prefix-matching rule it would be an unknown field — but `_get_field` matches
by substring containment (`key in k`), so `name` resolves to the `username`
field. -/
theorem c7_counterexample :
    specPrefixMatches cfgU "name" = [] ∧ getField cfgU "name" = .ok fUsername := by
  with_unfolding_all decide

/-- C7 (amended): lookup is exact on the lowercased key, and otherwise — when
partial field names are allowed — by case-insensitive substring containment
of the search key in a registered key: exactly one containment match resolves
to that field (`name` resolves to `username`), two or more raise the
ambiguous-field error (`user` with both `username` and `userid` registered),
zero raise the unknown-field error, and with partial matching disabled any
non-exact key is unknown. -/
theorem c7_amended :
    getField cfgUU "USERNAME" = .ok fUsername
    ∧ getField cfgU "name" = .ok fUsername
    ∧ getField cfgUU "user" = .err "Ambiguous field \x27user\x27"
    ∧ getField cfgUU "bogus" = .err "Unknown field \x27bogus\x27"
    ∧ getField ⟨mkFields [fUsername, fUserid], false, now0⟩ "user"
      = .err "Unknown field \x27user\x27" := by
  with_unfolding_all decide

/-- C8: at the failing input — a Bool field, raw value `none`, operator `=` —
`BoolField.get_subquery` runs `get_qvalue` on the raw value one line before
its none-check, so `modifiers.boolean` rejects the null sentinel and the
dedicated is-null branch is dead code; the claim (and the code's own
none-check two lines later) intends the is-null predicate. The other three
field classes test the sentinel first and do compile it (case-insensitively,
under both `=` and `:`) to the is-null lookup, and any other operator on the
sentinel raises the invalid-operator error. -/
theorem c8_none_sentinel :
    getSubquery now0 fRunning "none" "=" false = .err "Invalid boolean value \x27none\x27"
    ∧ getSubquery now0 fTestpath "none" "=" false
      = .ok (.q [("testpath", .isnull, .vbool true)])
    ∧ getSubquery now0 fCount "NULL" ":" false = .ok (.q [("count", .isnull, .vbool true)])
    ∧ getSubquery now0 fDate "null" "=" false = .ok (.q [("date", .isnull, .vbool true)])
    ∧ getSubquery now0 fDate "none" ">" false
      = .err "Invalid operator \x27>\x27 for None value" := by
  with_unfolding_all decide

/-- C9: for a Date field whose value yields a defined window, the strict and
non-strict inequality operators compile to identical predicates — `>` and
`>=` both lower to `field __gte mindate`, `<` and `<=` both lower to
`field __lte mindate` — and the window's upper bound appears only under `=`. -/
theorem c9_date_inequalities (now : DT) (k mf v : String) (qv mind maxd : DT)
    (hn : isNone v = false)
    (hq : dateMod v = .ok qv)
    (hm : getMinMaxDates now v qv = .ok (some mind, some maxd)) :
    getSubquery now ⟨.fdate, k, mf, false⟩ v ">" false = .ok (.q [(mf, .gte, .vdate mind)])
    ∧ getSubquery now ⟨.fdate, k, mf, false⟩ v ">=" false = .ok (.q [(mf, .gte, .vdate mind)])
    ∧ getSubquery now ⟨.fdate, k, mf, false⟩ v "<" false = .ok (.q [(mf, .lte, .vdate mind)])
    ∧ getSubquery now ⟨.fdate, k, mf, false⟩ v "<=" false = .ok (.q [(mf, .lte, .vdate mind)])
    ∧ getSubquery now ⟨.fdate, k, mf, false⟩ v "=" false =
        .ok (.qand (.q [(mf, .gte, .vdate mind)]) (.q [(mf, .lt, .vdate maxd)])) := by
  refine ⟨?_, ?_, ?_, ?_, ?_⟩ <;>
    simp [getSubquery, dateGetSubquery, hn, hq, hm, mergeQobjects, applyExclude]

/-- C9 witness: the date-inequality theorem applied to the value `2024`. -/
theorem c9_date_inequalities_witness :
    getSubquery now0 ⟨.fdate, "date", "date", false⟩ "2024" ">" false
      = .ok (.q [("date", .gte, .vdate ⟨2024, 1, 1, 0, 0, 0⟩)])
    ∧ getSubquery now0 ⟨.fdate, "date", "date", false⟩ "2024" ">=" false
      = .ok (.q [("date", .gte, .vdate ⟨2024, 1, 1, 0, 0, 0⟩)])
    ∧ getSubquery now0 ⟨.fdate, "date", "date", false⟩ "2024" "<" false
      = .ok (.q [("date", .lte, .vdate ⟨2024, 1, 1, 0, 0, 0⟩)])
    ∧ getSubquery now0 ⟨.fdate, "date", "date", false⟩ "2024" "<=" false
      = .ok (.q [("date", .lte, .vdate ⟨2024, 1, 1, 0, 0, 0⟩)])
    ∧ getSubquery now0 ⟨.fdate, "date", "date", false⟩ "2024" "=" false =
        .ok (.qand (.q [("date", .gte, .vdate ⟨2024, 1, 1, 0, 0, 0⟩)])
                   (.q [("date", .lt, .vdate ⟨2025, 1, 1, 0, 0, 0⟩)])) :=
  c9_date_inequalities now0 "date" "date" "2024" ⟨2024, 1, 1, 0, 0, 0⟩
    ⟨2024, 1, 1, 0, 0, 0⟩ ⟨2025, 1, 1, 0, 0, 0⟩
    (by with_unfolding_all decide) (by with_unfolding_all decide)
    (by with_unfolding_all decide)

/-- C10: calling `get_queryset` with an empty or whitespace-only search
string applies no filter at all — the base queryset is returned unchanged, no
error is recorded and no ordering is applied. -/
theorem c10_blank_search (cfg : Config) (qs : QuerySet) (searchstr : String) (node : Node)
    (h : searchstr.trim = "") :
    getQueryset cfg qs searchstr node = (⟨none, []⟩, .ok qs) := by
  unfold getQueryset
  rw [if_neg]
  · simp
  · rintro ⟨h1, h2⟩
    exact h2 h

/-- C10 witness: the blank-search theorem applied to a whitespace-only search
string over an empty base queryset. -/
theorem c10_blank_search_witness :
    getQueryset cfg0 ⟨[], []⟩ "   " (.root []) = (⟨none, []⟩, .ok ⟨[], []⟩) :=
  c10_blank_search cfg0 ⟨[], []⟩ "   " (.root []) (by with_unfolding_all decide)

example : evalQ (rowNum "count" 5) (numContainsQ "count" "5" 5) = true := by
  with_unfolding_all decide

example : evalQ (rowNum "count" (-5)) (numContainsQ "count" "5" 5) = true := by
  with_unfolding_all decide

example : evalQ (rowNum "count" (-5)) (numContainsQ "count" "-5" (-5)) = true := by
  with_unfolding_all decide

example : evalQ (rowNum "count" 5) (numContainsQ "count" "-5" (-5)) = false := by
  with_unfolding_all decide

example : evalQ (rowNum "amount" (3/2)) (numContainsQ "amount" "1.50" (3/2)) = true := by
  with_unfolding_all decide

example : evalQ (rowNum "amount" (8/5)) (numContainsQ "amount" "1.50" (3/2)) = false := by
  with_unfolding_all decide
